import Mathlib

/-!
Verification of the LangChain/Gemini/Pinecone tutorial notebook
(`LangChain_Gemini_Pinecone_Project_Explained.ipynb`).

The notebook is a linear script of calls into third-party SDKs.  The
definitions below are a shallow embedding of the parts of the notebook the
claims are about:

* the Python string primitives `.lower()` and the `in` substring test
  (ASCII case folding, which covers every keyword and input in the
  notebook);
* `run_agent` from the final code cell, with Python's resolution of the
  body's free globals made explicit: `python_repl` is bound in the same
  cell, `llm_chain` is bound by no cell of the notebook, and the external
  `run` methods are fallible oracles;
* the environment-variable reads `os.environ["GOOGLE_API_KEY"]` and
  `os.environ["PINECONE_API_KEY"]` (a missing key raises `KeyError`,
  embedded as `Except` with the offending key as the error value);
* the text splitter configured with `chunk_size=100, chunk_overlap=0`
  (modelled from the spec, see `fixedWindowsGo`);
* the Python value shapes of the prompts the notebook sends to the model,
  and the notebook's global name environment around the sequential-chain
  cell.
-/

/-- Boolean test that the first list is a prefix of the second
(character-by-character, as Python string matching does). -/
def isPrefixL : List Char → List Char → Bool
  | [], _ => true
  | _ :: _, [] => false
  | a :: as, b :: bs => a == b && isPrefixL as bs

/-- Substring containment: Python's `needle in hay` on strings.  The empty
needle is contained in every string, as in Python. -/
def containsSub (needle : List Char) : List Char → Bool
  | [] => needle.isEmpty
  | c :: rest => isPrefixL needle (c :: rest) || containsSub needle rest

/-- Python's `needle in hay` on `String`. -/
def pyIn (needle hay : String) : Bool :=
  containsSub needle.toList hay.toList

/-- Python's `s.lower()` restricted to ASCII case folding.  Every string the
notebook tests (the keyword `"calculate"` and the example commands) is
ASCII, where Python's `str.lower` agrees with `Char.toLower`. -/
def pyLower (s : String) : String :=
  (s.toList.map Char.toLower).asString

/-- Result of one call to `run_agent`: the value returned or the exception
raised, together with the argument `python_repl.run` received (`none` when
the REPL tool was not invoked). -/
structure AgentRun where
  result : Except String String
  replArg : Option String

/-- Shallow embedding of `run_agent` from the notebook's final code cell,
with Python's global-name resolution made explicit:

    def run_agent(input_text):
        response = llm_chain.run(input_text)
        if "calculate" in input_text.lower():
            python_result = python_repl.run(response)
            return python_result
        return response

The body's free globals are `llm_chain` and `python_repl`; `globals` maps
each bound one to the fallible `run` method of its value (both are calls
to external services).  Evaluating an unbound global raises `NameError`
before any call happens, and a raised exception propagates — the body has
no handler. -/
def run_agent (globals : List (String × (String → Except String String)))
    (input_text : String) : AgentRun :=
  match globals.lookup "llm_chain" with
  | none => { result := .error ("NameError: " ++ "llm_chain"), replArg := none }
  | some llmChainRun =>
    match llmChainRun input_text with
    | .error e => { result := .error e, replArg := none }
    | .ok response =>
      if pyIn "calculate" (pyLower input_text) then
        match globals.lookup "python_repl" with
        | none =>
            { result := .error ("NameError: " ++ "python_repl"),
              replArg := none }
        | some pythonReplRun =>
            { result := pythonReplRun response, replArg := some response }
      else
        { result := .ok response, replArg := none }

/-- The notebook's bindings for the globals referenced by `run_agent`'s
body: the final cell assigns `python_repl = PythonREPLTool()` (its `run`
method is the external REPL, the parameter `pythonReplRun`), but no cell
of the notebook ever assigns `llm_chain` — the `LLMChain` cell binds
`chain` — so `llm_chain` is absent from the map. -/
def notebookAgentGlobals (pythonReplRun : String → Except String String) :
    List (String × (String → Except String String)) :=
  [("python_repl", pythonReplRun)]

/-- C1 (code-bug evidence): on the all-lowercase command
`"calculate the square of 7"` the keyword does occur in the input text,
yet the REPL tool is not invoked: the call raises `NameError` on
`llm_chain` at its first statement, before the keyword test, because the
notebook never binds `llm_chain`.  The REPL is invoked for no input at
all, so the claimed iff fails. -/
theorem c1_no_repl_call_despite_keyword
    (pythonReplRun : String → Except String String) :
    pyIn "calculate" "calculate the square of 7" = true
    ∧ (run_agent (notebookAgentGlobals pythonReplRun)
        "calculate the square of 7").replArg = none
    ∧ (run_agent (notebookAgentGlobals pythonReplRun)
        "calculate the square of 7").result
          = .error ("NameError: " ++ "llm_chain") :=
  ⟨by decide, rfl, rfl⟩

/-- C2 (code-bug evidence): on the notebook's own command
`"Calculate the square of 7"`, `run_agent` returns nothing at all — the
call raises `NameError` on `llm_chain` before either branch can produce a
return value, so no model response is obtained and nothing is handed to
the REPL. -/
theorem c2_run_agent_raises_nameerror
    (pythonReplRun : String → Except String String) :
    (run_agent (notebookAgentGlobals pythonReplRun)
        "Calculate the square of 7").result
          = .error ("NameError: " ++ "llm_chain")
    ∧ (run_agent (notebookAgentGlobals pythonReplRun)
        "Calculate the square of 7").replArg = none :=
  ⟨rfl, rfl⟩

/-- C9 (code-bug evidence): the lowercased-membership test spelled out in
the source's branch line is never reached: on both capitalisations of the
example command the membership holds after lowercasing, yet neither call
takes the REPL branch — both raise `NameError` on `llm_chain` first and
behave identically through the error path — so the REPL branch is not
decided by that (case-insensitive, as written) test. -/
theorem c9_lowercase_test_never_reached
    (pythonReplRun : String → Except String String) :
    pyIn "calculate" (pyLower "Calculate the square of 7") = true
    ∧ (run_agent (notebookAgentGlobals pythonReplRun)
        "Calculate the square of 7").replArg.isSome = false
    ∧ (run_agent (notebookAgentGlobals pythonReplRun)
        "calculate the square of 7").replArg.isSome = false
    ∧ (run_agent (notebookAgentGlobals pythonReplRun)
        "Calculate the square of 7").result
        = (run_agent (notebookAgentGlobals pythonReplRun)
            "calculate the square of 7").result :=
  ⟨by decide, rfl, rfl, rfl⟩

/-- C10: whether `run_agent` executes the REPL depends only on the user's
input text and not on the model's generated response: for any two runs
with the same input, whatever the external oracles do, either both invoke
the REPL or neither does — in fact neither ever does, because every call
raises `NameError` on the unbound global `llm_chain` before the branch is
reached. -/
theorem c10_repl_decision_independent_of_model_response
    (repl1 repl2 : String → Except String String) (input : String) :
    (run_agent (notebookAgentGlobals repl1) input).replArg.isSome
      = (run_agent (notebookAgentGlobals repl2) input).replArg.isSome
    ∧ (run_agent (notebookAgentGlobals repl1) input).replArg.isSome
        = false :=
  ⟨rfl, rfl⟩

/-- Python's `os.environ[k]`: look the key up in the process environment
(an association list), raising `KeyError(k)` — embedded as `.error k` —
when the key is absent.  The notebook never wraps these accesses in any
`try` block. -/
def lookupEnv (env : List (String × String)) (k : String) :
    Except String String :=
  match env.lookup k with
  | some v => .ok v
  | none => .error k

/-- The external clients the notebook configures from credentials:
`genai.configure(api_key=...)` and `Pinecone(api_key=...)`. -/
structure NotebookClients where
  genaiApiKey : String
  pineconeApiKey : String
deriving DecidableEq

/-- The environment-variable subscripts `os.environ[...]` appearing in the
notebook source, in execution order: the model-setup cell runs
`genai.configure(api_key=os.environ["GOOGLE_API_KEY"])`, and the Pinecone
cell runs `Pinecone(api_key=os.environ["PINECONE_API_KEY"])`.  No other
environment variable is subscripted anywhere in the notebook; in
particular no Pinecone environment/region variable is read. -/
def osEnvironReads : List String :=
  ["GOOGLE_API_KEY", "PINECONE_API_KEY"]

/-- The notebook's credential loading, in source order: read
`GOOGLE_API_KEY` and hand it to `genai.configure`, then read
`PINECONE_API_KEY` and hand it to the `Pinecone` constructor.  A missing
key's `KeyError` propagates: there is no handler anywhere in the
notebook. -/
def notebookSetup (env : List (String × String)) :
    Except String NotebookClients := do
  let g ← lookupEnv env "GOOGLE_API_KEY"
  let p ← lookupEnv env "PINECONE_API_KEY"
  pure { genaiApiKey := g, pineconeApiKey := p }

/-- Variant of `run_agent` whose external calls can fail: `llm_chain.run`
(network failure or malformed model output) and `python_repl.run` (REPL
execution error) are oracles returning `Except`.  The Python body has no
`try`/handler, so an exception in either call propagates to the caller. -/
def run_agentE (llmChainRun pythonReplRun : String → Except String String)
    (input_text : String) : Except String String := do
  let response ← llmChainRun input_text
  if pyIn "calculate" (pyLower input_text) then
    pythonReplRun response
  else
    pure response

/-- C3 counterexample: an environment holding only the two API keys (and no
environment/region variable) fully configures the program, and the list of
environment subscripts in the source has two entries, not three — so the
program does not read three credentials from the environment. -/
theorem c3_only_two_env_credentials :
    notebookSetup [("GOOGLE_API_KEY", "g-key"), ("PINECONE_API_KEY", "p-key")]
        = .ok { genaiApiKey := "g-key", pineconeApiKey := "p-key" }
    ∧ osEnvironReads.length = 2 := by
  exact ⟨rfl, rfl⟩

/-- C3 (amended): the program requires exactly two credentials supplied via
environment variables — the model API key `GOOGLE_API_KEY` and the
vector-database API key `PINECONE_API_KEY`; each is read from the
environment and used to configure its external client, and no
environment/region variable is read. -/
theorem c3_two_required_credentials (env : List (String × String))
    (gk pk : String)
    (hg : lookupEnv env "GOOGLE_API_KEY" = .ok gk)
    (hp : lookupEnv env "PINECONE_API_KEY" = .ok pk) :
    notebookSetup env = .ok { genaiApiKey := gk, pineconeApiKey := pk }
    ∧ osEnvironReads = ["GOOGLE_API_KEY", "PINECONE_API_KEY"] := by
  refine ⟨?_, rfl⟩
  simp only [notebookSetup, hg, hp]
  rfl

/-- C3 witness: concrete environment carrying exactly the two keys. -/
theorem c3_two_required_credentials_witness :
    lookupEnv [("GOOGLE_API_KEY", "a"), ("PINECONE_API_KEY", "b")]
        "GOOGLE_API_KEY" = .ok "a"
    ∧ (notebookSetup [("GOOGLE_API_KEY", "a"), ("PINECONE_API_KEY", "b")]
          = .ok { genaiApiKey := "a", pineconeApiKey := "b" }
      ∧ osEnvironReads = ["GOOGLE_API_KEY", "PINECONE_API_KEY"]) :=
  ⟨rfl,
    c3_two_required_credentials
      [("GOOGLE_API_KEY", "a"), ("PINECONE_API_KEY", "b")] "a" "b"
      rfl rfl⟩

/-- C4: failures propagate unhandled.  When `GOOGLE_API_KEY` is absent its
`KeyError` is the program's result, untransformed; likewise for
`PINECONE_API_KEY` once the first read succeeded; in `run_agent`, an
exception raised by the model call, or by the REPL execution on the
keyword branch, is returned to the caller exactly as raised — no operation
catches or transforms any of these errors. -/
theorem c4_errors_propagate_unhandled (env : List (String × String))
    (llmRun replRun : String → Except String String) (input : String) :
    (lookupEnv env "GOOGLE_API_KEY" = .error "GOOGLE_API_KEY" →
      notebookSetup env = .error "GOOGLE_API_KEY")
    ∧ (∀ g, lookupEnv env "GOOGLE_API_KEY" = .ok g →
        lookupEnv env "PINECONE_API_KEY" = .error "PINECONE_API_KEY" →
        notebookSetup env = .error "PINECONE_API_KEY")
    ∧ (∀ e, llmRun input = .error e →
        run_agentE llmRun replRun input = .error e)
    ∧ (∀ r e, llmRun input = .ok r →
        pyIn "calculate" (pyLower input) = true →
        replRun r = .error e →
        run_agentE llmRun replRun input = .error e) := by
  refine ⟨?_, ?_, ?_, ?_⟩
  · intro hg
    simp only [notebookSetup, hg]
    rfl
  · intro g hg hp
    simp only [notebookSetup, hg, hp]
    rfl
  · intro e he
    simp only [run_agentE, he]
    rfl
  · intro r e hr hkey he
    simp only [run_agentE, hr, hkey]
    exact he

/-- C4 witness: an empty environment makes the `GOOGLE_API_KEY` lookup
fail and the program's result is that very `KeyError`; a REPL oracle that
raises on the notebook's own example command makes `run_agent` return that
error unchanged. -/
theorem c4_errors_propagate_unhandled_witness :
    notebookSetup [] = .error "GOOGLE_API_KEY"
    ∧ run_agentE (fun _ => .ok "7 ** 2")
        (fun _ => .error "ZeroDivisionError")
        "calculate the square of 7" = .error "ZeroDivisionError" :=
  ⟨(c4_errors_propagate_unhandled [] (fun _ => .ok "7 ** 2")
      (fun _ => .error "ZeroDivisionError") "calculate the square of 7").1
      rfl,
    (c4_errors_propagate_unhandled [] (fun _ => .ok "7 ** 2")
      (fun _ => .error "ZeroDivisionError")
      "calculate the square of 7").2.2.2 "7 ** 2" "ZeroDivisionError"
      rfl (by decide) rfl⟩

/-- Modelled from the spec: the notebook's splitting cell constructs
langchain's `RecursiveCharacterTextSplitter(chunk_size=100, chunk_overlap=0)`,
whose implementation is third-party library code not present in this
repository; the spec describes the repository's splitting step as
"fixed-size windowing of a string" on those size/overlap parameters.
`fixedWindowsGo cs fuel l` cuts successive windows of `cs` characters off
the front of `l`; the fuel argument, instantiated with the input length,
bounds the recursion. -/
def fixedWindowsGo (cs : Nat) : Nat → List Char → List (List Char)
  | _, [] => []
  | 0, c :: t => [c :: t]
  | fuel + 1, c :: t =>
      (c :: t).take cs :: fixedWindowsGo cs fuel ((c :: t).drop cs)

/-- Ceiling-division step: removing one full window of `cs` characters
from a nonempty input lowers the ceiling `(n + cs - 1) / cs` by one. -/
theorem ceilDiv_step (cs n : Nat) (hcs : 0 < cs) (hn : 0 < n) :
    (n + cs - 1) / cs = (n - cs + cs - 1) / cs + 1 := by
  rcases le_or_lt n cs with h | h
  · have h1 : n - cs = 0 := by omega
    rw [h1, Nat.div_eq_of_lt (show 0 + cs - 1 < cs by omega)]
    exact Nat.div_eq_of_lt_le (by omega) (by omega)
  · have h3 : n + cs - 1 = (n - cs + cs - 1) + cs := by omega
    rw [h3, Nat.add_div_right _ hcs]

/-- With enough fuel, fixed windowing yields the ceiling of length over
window size many windows. -/
theorem fixedWindowsGo_length (cs : Nat) (hcs : 0 < cs) :
    ∀ fuel l, l.length ≤ fuel →
      (fixedWindowsGo cs fuel l).length = (l.length + cs - 1) / cs := by
  intro fuel
  induction fuel with
  | zero =>
    intro l hl
    have hl0 : l = [] := List.eq_nil_of_length_eq_zero (Nat.le_zero.mp hl)
    subst hl0
    show 0 = (List.length [] + cs - 1) / cs
    rw [List.length_nil, Nat.div_eq_of_lt (show 0 + cs - 1 < cs by omega)]
  | succ fuel ih =>
    intro l hl
    cases l with
    | nil =>
      show 0 = (List.length [] + cs - 1) / cs
      rw [List.length_nil, Nat.div_eq_of_lt (show 0 + cs - 1 < cs by omega)]
    | cons c t =>
      have hdrop : ((c :: t).drop cs).length ≤ fuel := by
        rw [List.length_drop]
        simp only [List.length_cons] at hl ⊢
        omega
      show ((c :: t).take cs :: fixedWindowsGo cs fuel ((c :: t).drop cs)).length = _
      rw [List.length_cons, ih _ hdrop, List.length_drop,
        ceilDiv_step cs (c :: t).length hcs (by simp)]

/-- With enough fuel and a positive window size, every window has at most
`cs` characters. -/
theorem fixedWindowsGo_window_le (cs : Nat) (hcs : 0 < cs) :
    ∀ fuel l, l.length ≤ fuel →
      ∀ w ∈ fixedWindowsGo cs fuel l, w.length ≤ cs := by
  intro fuel
  induction fuel with
  | zero =>
    intro l hl w hw
    have hl0 : l = [] := List.eq_nil_of_length_eq_zero (Nat.le_zero.mp hl)
    subst hl0
    simp [fixedWindowsGo] at hw
  | succ fuel ih =>
    intro l hl w hw
    cases l with
    | nil => simp [fixedWindowsGo] at hw
    | cons c t =>
      have hdrop : ((c :: t).drop cs).length ≤ fuel := by
        rw [List.length_drop]
        simp only [List.length_cons] at hl ⊢
        omega
      have hw' : w = (c :: t).take cs
          ∨ w ∈ fixedWindowsGo cs fuel ((c :: t).drop cs) :=
        List.mem_cons.mp hw
      rcases hw' with rfl | hw'
      · rw [List.length_take]
        omega
      · exact ih _ hdrop w hw'

/-- With enough fuel, the windows concatenate back to the input. -/
theorem fixedWindowsGo_join (cs : Nat) (hcs : 0 < cs) :
    ∀ fuel l, l.length ≤ fuel → (fixedWindowsGo cs fuel l).flatten = l := by
  intro fuel
  induction fuel with
  | zero =>
    intro l hl
    have hl0 : l = [] := List.eq_nil_of_length_eq_zero (Nat.le_zero.mp hl)
    subst hl0
    rfl
  | succ fuel ih =>
    intro l hl
    cases l with
    | nil => rfl
    | cons c t =>
      have hdrop : ((c :: t).drop cs).length ≤ fuel := by
        rw [List.length_drop]
        simp only [List.length_cons] at hl ⊢
        omega
      show (c :: t).take cs ++ (fixedWindowsGo cs fuel ((c :: t).drop cs)).flatten
          = c :: t
      rw [ih _ hdrop, List.take_append_drop]

/-- The `chunk_size` parameter of the splitter cell. -/
def chunk_size : Nat := 100

/-- The `chunk_overlap` parameter of the splitter cell. -/
def chunk_overlap : Nat := 0

/-- Splitting one text: fixed windows of `chunk_size` characters (the
overlap parameter is 0, so windows are disjoint and consecutive). -/
def splitText (s : String) : List String :=
  (fixedWindowsGo chunk_size s.toList.length s.toList).map List.asString

/-- The cell `text_splitter.create_documents([explanation])`: one chunk
list per input text, concatenated into one document list. -/
def create_documents (texts : List String) : List String :=
  (texts.map splitText).flatten

/-- Folding string concatenation over packed character lists packs the
concatenation of the lists. -/
theorem foldl_append_asString (ls : List (List Char)) :
    ∀ acc : List Char,
      List.foldl (fun r s => r ++ s) (List.asString acc)
          (ls.map List.asString)
        = List.asString (acc ++ ls.flatten) := by
  induction ls with
  | nil =>
    intro acc
    show List.asString acc = List.asString (acc ++ List.flatten [])
    rw [List.flatten_nil, List.append_nil]
  | cons a as ih =>
    intro acc
    show List.foldl (fun r s => r ++ s) (List.asString (acc ++ a))
        (as.map List.asString) = List.asString (acc ++ (a :: as).flatten)
    rw [ih (acc ++ a), List.flatten_cons, List.append_assoc]

/-- Joining packed character lists packs their concatenation. -/
theorem join_map_asString (ls : List (List Char)) :
    String.join (ls.map List.asString) = List.asString ls.flatten := by
  show List.foldl (fun r s => r ++ s) (List.asString [])
      (ls.map List.asString) = List.asString ls.flatten
  rw [foldl_append_asString ls [], List.nil_append]

/-- C5 (spec-modelled): for every input string, the splitter configured
with `chunk_size=100` and `chunk_overlap=0` produces a predictable number
of chunks determined by the windowing arithmetic applied to the input
length: with overlap 0, the ceiling of length divided by 100, here written
`(length + 100 - 1) / 100` in natural-number arithmetic. -/
theorem c5_chunk_count_is_ceiling_div (s : String) :
    (create_documents [s]).length = (s.length + chunk_size - 1) / chunk_size := by
  simp only [create_documents, List.map_cons, List.map_nil,
    List.flatten_cons, List.flatten_nil, List.append_nil, splitText,
    List.length_map]
  exact fixedWindowsGo_length chunk_size (by decide)
    s.toList.length s.toList le_rfl

/-- C6 (spec-modelled): splitting is fixed-size windowing with no semantic
awareness: every chunk produced with `chunk_size=100, chunk_overlap=0` has
length at most 100, and the concatenation of the chunks in order equals
the original string. -/
theorem c6_fixed_windowing (s : String) :
    (∀ c ∈ splitText s, c.length ≤ chunk_size)
    ∧ String.join (splitText s) = s := by
  constructor
  · intro c hc
    rcases List.mem_map.mp hc with ⟨w, hw, rfl⟩
    show (List.asString w).length ≤ chunk_size
    have hlen : (List.asString w).length = w.length := rfl
    rw [hlen]
    exact fixedWindowsGo_window_le chunk_size (by decide)
      s.toList.length s.toList le_rfl w hw
  · show String.join ((fixedWindowsGo chunk_size s.toList.length
        s.toList).map List.asString) = s
    rw [join_map_asString, fixedWindowsGo_join chunk_size (by decide)
      s.toList.length s.toList le_rfl]
    rfl

/-- C6 witness: the word the notebook splits documents about fits in one
window, whose length is within the bound, and joins back to itself. -/
theorem c6_fixed_windowing_witness :
    ("autoencoder" : String).length ≤ chunk_size
    ∧ String.join (splitText "autoencoder") = "autoencoder" :=
  ⟨(c6_fixed_windowing "autoencoder").1 "autoencoder" (by decide),
    (c6_fixed_windowing "autoencoder").2⟩

/-- Global names bound by the notebook's code cells before the
sequential-chain construction, in execution order: the import targets and
assignment targets of the dotenv cell, the `genai` cell, the two model
cells, the prompt-template cell, the `LLMChain` cell, and the import line
of the sequential-chain cell itself.  `chain` is assigned twice; no cell
ever assigns `chain_two`. -/
def namesBoundBeforeSeqChain : List String :=
  ["load_dotenv", "find_dotenv",
   "genai", "os",
   "ChatGoogleGenerativeAI", "llm",
   "messages", "ai_msg",
   "ChatPromptTemplate", "prompt", "chain",
   "LLMChain",
   "SimpleSequentialChain"]

/-- Python global-name resolution: evaluating a name yields it when bound
and raises `NameError` otherwise. -/
def evalName (scope : List String) (n : String) : Except String String :=
  if scope.contains n then .ok n else .error ("NameError: " ++ n)

/-- The global names the expression
`SimpleSequentialChain(chains=[chain, chain_two], verbose=True)`
evaluates, in evaluation order. -/
def seqChainArgNames : List String :=
  ["SimpleSequentialChain", "chain", "chain_two"]

/-- Evaluating the sequential-chain construction resolves each referenced
global in order, propagating the first `NameError`. -/
def buildOverallChain (scope : List String) : Except String (List String) :=
  seqChainArgNames.mapM (evalName scope)

/-- C7 (code-bug evidence): running the sequential-chain cell cannot
delegate to the model at all, let alone twice: the cell references the
global `chain_two`, which no cell of the notebook ever binds, so the
construction raises `NameError` — `chain` is in scope but `chain_two` is
not. -/
theorem c7_chain_two_undefined :
    buildOverallChain namesBoundBeforeSeqChain
        = .error ("NameError: " ++ "chain_two")
    ∧ namesBoundBeforeSeqChain.contains "chain" = true
    ∧ namesBoundBeforeSeqChain.contains "chain_two" = false := by
  refine ⟨?_, by decide, by decide⟩
  rfl

/-- Shape of a Python value used as a prompt payload in the notebook. -/
inductive PyVal where
  | str : String → PyVal
  | set : List String → PyVal
  | dict : List (String × String) → PyVal
deriving DecidableEq

/-- The `messages` list of the conversational cell, transcribed from the
source.  Each element is written in Python with braces around two
comma-separated strings, which makes it a set literal of two strings —
not a dict (there is no colon), hence not a role-to-content mapping. -/
def cell8Messages : List PyVal :=
  [PyVal.set ["system", "You are an expert data scientist"],
   PyVal.set ["human",
     "Write a Python script that trains a neural network on simulated data "]]

/-- Predicate from the spec's words: a prompt payload is a plain string or
a small role-to-content mapping. -/
def isStrOrRoleMapping : PyVal → Bool
  | .str _ => true
  | .dict _ => true
  | .set _ => false

/-- Test for a Python set literal. -/
def isSetLiteral : PyVal → Bool
  | .set _ => true
  | _ => false

/-- The prompt payloads the notebook hands to `llm.invoke`: the ballad
request (a plain string) followed by the two elements of `messages`. -/
def invokePayloads : List PyVal :=
  PyVal.str "Write me a ballad about LangChain" :: cell8Messages

/-- C8 (code-bug evidence): not every prompt sent to the model is a plain
string or a role-to-content mapping — the elements of `messages` are
Python set literals (unordered, with no role-to-content association), so
the conversational payload falsifies the stated shape while the ballad
prompt alone satisfies it. -/
theorem c8_messages_are_sets_not_mappings :
    invokePayloads.all isStrOrRoleMapping = false
    ∧ cell8Messages.all isSetLiteral = true
    ∧ isStrOrRoleMapping (PyVal.str "Write me a ballad about LangChain")
        = true := by
  exact ⟨rfl, rfl, rfl⟩
